import Mathlib

/-!
# Verification of the weather aggregation script

A shallow embedding of `src/weather.py` (a pandas/matplotlib/plotly script
that loads a daily precipitation CSV and renders monthly aggregate charts),
together with theorems settling the specification claims about it.

Modelling conventions:
* dates are triples `(year, month, day)` of naturals;
* precipitation values are rationals (`Rat`), standing in for the floats of
  the source — none of the claims hinge on floating-point rounding;
* a pandas `DataFrame` with a `DatetimeIndex` and one value column is a list
  of `(Date, Rat)` rows in index order, plus the column name;
* `df.resample("M")` produces one bin per calendar month from the first to
  the last month occurring in the index, inclusive (empty interior bins are
  kept), so it is modelled by `monthRange` over linear month indices;
* pandas raising an exception is modelled by `Option`/`Except`;
* the process-wide pandas/matplotlib options mutated by the script are an
  explicit `GlobalOptions` state threaded through the stateful functions.
-/

set_option autoImplicit false

namespace Weather

/-- A calendar date as stored in the first column of the CSV. -/
structure Date where
  year : Nat
  month : Nat
  day : Nat
deriving DecidableEq, Repr

/-- Linear month index: months are numbered consecutively so that resampling
bins can be enumerated as a contiguous range of naturals. -/
def Date.monthIdx (d : Date) : Nat := d.year * 12 + (d.month - 1)

/-- Recover the `(year, month)` key of a linear month index, as it appears in
the `DatetimeIndex` of a resampled frame. -/
def monthKey (i : Nat) : Nat × Nat := (i / 12, i % 12 + 1)

/-- Chronological comparison of dates (year, then month, then day). -/
def dateLe (a b : Date) : Bool :=
  a.year < b.year ||
    (a.year == b.year &&
      (a.month < b.month || (a.month == b.month && a.day ≤ b.day)))

/-- A single-column pandas DataFrame with a date index: the rows in index
order and the name of the value column. -/
structure DataFrame where
  rows : List (Date × Rat)
  colName : String
deriving DecidableEq, Repr

/-- `True` when the index of the frame is chronologically sorted. -/
def isSortedByDate : List (Date × Rat) → Bool
  | [] => true
  | [_] => true
  | a :: b :: rest => dateLe a.1 b.1 && isSortedByDate (b :: rest)

/-- Minimum of a list of naturals, `none` on the empty list (pandas returns
NaN for the min of an empty index). -/
def listMin : List Nat → Option Nat
  | [] => none
  | x :: xs => some (xs.foldl min x)

/-- Maximum of a list of naturals, `none` on the empty list. -/
def listMax : List Nat → Option Nat
  | [] => none
  | x :: xs => some (xs.foldl max x)

/-- The linear month indices of the rows of a frame. -/
def monthsOf (rows : List (Date × Rat)) : List Nat :=
  rows.map (fun r => r.1.monthIdx)

/-- The years of the rows of a frame (`df.index.year`). -/
def yearsOf (df : DataFrame) : List Nat :=
  df.rows.map (fun r => r.1.year)

/-- The contiguous list of month indices covered by `df.resample("M")`:
every calendar month from the first to the last month present in the index.
Empty when the frame has no rows. -/
def monthRange (rows : List (Date × Rat)) : List Nat :=
  match listMin (monthsOf rows), listMax (monthsOf rows) with
  | some lo, some hi => (List.range (hi + 1 - lo)).map (· + lo)
  | _, _ => []

/-- The values of the rows falling in month bin `i`. -/
def valuesInMonth (rows : List (Date × Rat)) (i : Nat) : List Rat :=
  (rows.filter (fun r => r.1.monthIdx == i)).map Prod.snd

/-- Embeds `df.resample("M")` followed by aggregating each monthly bucket
with `f`: one output row per month in `monthRange`, keyed by `(year, month)`. -/
def resampleMonthly {α : Type} (f : List Rat → α) (rows : List (Date × Rat)) :
    List ((Nat × Nat) × α) :=
  (monthRange rows).map (fun i => (monthKey i, f (valuesInMonth rows i)))

/-- Embeds `read_csv_data` (src/weather.py lines 39-54) at the data level:
`pd.read_csv(..., index_col=0, header=None, usecols=[0, 1])` keeps the
rows of the file in file order — it performs no sort — and the script renames the
single value column to `降水量`. -/
def read_csv_data (fileRows : List (Date × Rat)) : DataFrame :=
  { rows := fileRows, colName := "降水量" }

/-- Embeds `df.resample("M").sum()` as used by `plot_rain_fall_plt` (line 69)
and `plot_rain_amount_px` (line 116): monthly sums, with empty interior
months summing to `0`. -/
def monthlySum (df : DataFrame) : List ((Nat × Nat) × Rat) :=
  resampleMonthly (fun vs => vs.foldr (· + ·) 0) df.rows

/-- The rows whose value strictly exceeds the threshold:
`df[df["降水量"] > rf]`. -/
def filteredRows (df : DataFrame) (rf : Rat) : List (Date × Rat) :=
  df.rows.filter (fun r => decide (rf < r.2))

/-- Embeds `df[df["降水量"] > rf].resample("M").count()` as used by
`plot_rainy_days_plt` (line 86) and `plot_rainy_days_px` (line 137): the
frame is filtered to above-threshold rows FIRST, and the monthly bins are
then derived from the index span of the filtered frame. -/
def monthlyCountAbove (df : DataFrame) (rf : Rat) : List ((Nat × Nat) × Nat) :=
  resampleMonthly List.length (filteredRows df rf)

/-- The fixed 12-element month-label index assigned by `create_year_df`
(lines 61-62). -/
def monthLabels : List String :=
  ["1月", "2月", "3月", "4月", "5月", "6月",
   "7月", "8月", "9月", "10月", "11月", "12月"]

/-- Embeds `create_year_df` (lines 57-64): filter the aggregate frame to the
rows whose index year equals `yyyy`, then assign the fixed 12-element month
label index and the column name `yyyy`.  Assigning a 12-element index raises
`ValueError` (length mismatch) unless the filtered frame has exactly 12
rows; the error is modelled as `none`.  No missing-value markers are ever
inserted: the labels are attached positionally to whatever rows are there. -/
def create_year_df {α : Type} (agg : List ((Nat × Nat) × α)) (yyyy : Nat) :
    Option (List (String × α) × Nat) :=
  if (agg.filter (fun e => e.1.1 == yyyy)).length = 12 then
    some (monthLabels.zip ((agg.filter (fun e => e.1.1 == yyyy)).map Prod.snd), yyyy)
  else
    none

/-- Option-valued `mapM`, written out so that the year loop of the plotting
functions (each iteration may raise) is easy to reason about. -/
def optionMapM {α β : Type} (f : α → Option β) : List α → Option (List β)
  | [] => some []
  | x :: xs =>
    match f x, optionMapM f xs with
    | some y, some ys => some (y :: ys)
    | _, _ => none

/-- Embeds the year loop shared by `plot_rain_fall_plt` (lines 71-75),
`plot_rainy_days_plt` (lines 88-92) and the px variants: for each year `y`
in `range(start_year, end_year)` build `create_year_df(agg, y)` and
concatenate column-wise; a `ValueError` from any iteration aborts the run. -/
def buildYearTable {α : Type} (agg : List ((Nat × Nat) × α))
    (startY endY : Nat) : Option (List (List (String × α) × Nat)) :=
  optionMapM (fun k => create_year_df agg (startY + k)) (List.range (endY - startY))

/-- The process-wide display state the script mutates: pandas
`display.max_rows`, pandas `display.precision`, and the matplotlib font
family. -/
structure GlobalOptions where
  maxRows : Nat
  precision : Nat
  fontFamily : String
deriving DecidableEq, Repr

/-- Embeds `read_csv_data` together with its process-wide effects (lines
50-53): besides the read, it sets pandas `display.max_rows` to 500 and the
display precision to 1. -/
def read_csv_dataS (fileRows : List (Date × Rat)) (g : GlobalOptions) :
    DataFrame × GlobalOptions :=
  (read_csv_data fileRows, { g with maxRows := 500, precision := 1 })

/-- The path `main` hands to `read_csv_data` (line 18).  The only parameter
of `main` is the backend selector `graph_type`; the path is the string
literal below. -/
def mainInputPath (graphType : String) : String :=
  match graphType with
  | _ => "./data/hiyoshi.csv"

/-- The errors a run can surface.  The script defines no error classes of
its own; these are the exceptions of the underlying libraries and runtime:
`notFound` is the file-not-found error of the reader, `emptyData` its
empty-data error on a zero-row file, `parseError` its failure on an
unparseable first column, `valueError` the 12-label index-assignment
length mismatch in `create_year_df`, and `typeErrorRange` the TypeError of
`range(NaN, NaN)` when the frame has no rows. -/
inductive RunError
  | notFound
  | emptyData
  | parseError
  | valueError
  | typeErrorRange
deriving DecidableEq, Repr

/-- A raw input row before date parsing: the first field either parses as a
date (`some d`) or does not, the second field is the numeric value. -/
structure RawRow where
  dateField : Option Date
  value : Rat
deriving DecidableEq, Repr

/-- Parse every first column as a date; `none` as soon as one row fails. -/
def parseRows : List RawRow → Option (List (Date × Rat))
  | [] => some []
  | r :: rs =>
    match r.dateField, parseRows rs with
    | some d, some rest => some ((d, r.value) :: rest)
    | _, _ => none

/-- Embeds the load at the error level: a missing path raises the reader
file-not-found error, a zero-row file already fails inside `read_csv` with
its empty-data error, an unparseable date raises a parse error; otherwise
`read_csv_data` returns the frame in file order. -/
def loadFile (file : Option (List RawRow)) : Except RunError DataFrame :=
  match file with
  | none => .error .notFound
  | some [] => .error .emptyData
  | some (r :: rs) =>
    match parseRows (r :: rs) with
    | none => .error .parseError
    | some parsed => .ok (read_csv_data parsed)

/-- The plt branch of `main` after a successful load, recording the
aggregation events performed, in execution order, next to the outcome.
Embeds lines 20-31 with `plot_rain_fall_plt` and `plot_rainy_days_plt`:
each plot function resamples first (lines 69 and 86) and only then runs the
year loop, so with a zero-row frame `start_year`/`end_year` are NaN, the
monthly-sum resample still happens, and `range(NaN, NaN)` then raises
TypeError. -/
def mainPltAfterLoad (df : DataFrame) : List String × Except RunError Unit :=
  match listMin (yearsOf df), listMax (yearsOf df) with
  | some s, some e =>
    match buildYearTable (monthlySum df) s e with
    | none => (["resample_sum"], .error .valueError)
    | some _ =>
      match buildYearTable (monthlyCountAbove df 1) s e with
      | none => (["resample_sum", "resample_count"], .error .valueError)
      | some _ => (["resample_sum", "resample_count"], .ok ())
  | _, _ => (["resample_sum"], .error .typeErrorRange)

/-- Embeds a plt run of `main` (lines 12-31): set the global display
options, load the CSV, set the matplotlib font, then plot.  The first
component is the aggregation trace and the outcome, the second the final
process-wide state.  Any error aborts the run: no partial result is
carried. -/
def mainPlt (file : Option (List RawRow)) (g : GlobalOptions) :
    (List String × Except RunError Unit) × GlobalOptions :=
  match loadFile file with
  | .error err => (([], .error err), { g with maxRows := 500, precision := 1 })
  | .ok df =>
    (mainPltAfterLoad df,
     { g with maxRows := 500, precision := 1, fontFamily := "Ricty Diminished" })

/-- The rainy-day aggregate of the matplotlib backend as invoked by `main`
(line 31): `plot_rainy_days_plt` is called with `rf = 1`, so it counts the
days whose value is strictly greater than 1. -/
def pltRainyAgg (df : DataFrame) : List ((Nat × Nat) × Nat) :=
  monthlyCountAbove df 1

/-- The rainy-day aggregate of the plotly backend: `plot_rainy_days_px`
(line 137) filters with the literal threshold 0 whatever the caller
configured, so it counts the days whose value is strictly greater than 0. -/
def pxRainyAgg (df : DataFrame) : List ((Nat × Nat) × Nat) :=
  monthlyCountAbove df 0

/-- The example series of the spec (section 8): three January and February
2022 measurements. -/
def dfExample : DataFrame :=
  read_csv_data [(⟨2022, 1, 1⟩, 0), (⟨2022, 1, 15⟩, 5), (⟨2022, 2, 10⟩, 0)]

/-- A sparse series whose first year starts in March. -/
def dfSparse : DataFrame :=
  read_csv_data [(⟨2020, 3, 1⟩, 1), (⟨2021, 5, 1⟩, 2)]

/-- A two-month series used to exercise the monthly-sum coverage facts. -/
def dfTwoMonths : DataFrame :=
  read_csv_data [(⟨2022, 1, 1⟩, 5), (⟨2022, 3, 2⟩, 7)]

/-- The rational one half, built directly so that kernel reduction (and
hence `decide`) can evaluate it. -/
def half : Rat := ⟨1, 2, by decide, Nat.coprime_one_left 2⟩

/-- A series with a gap: above-threshold rain in January and March 2022 and
a light drizzle in February. -/
def dfGap : DataFrame :=
  read_csv_data [(⟨2022, 1, 5⟩, 3), (⟨2022, 2, 1⟩, half), (⟨2022, 3, 7⟩, 4)]

/-- A one-day series whose only measurement is a drizzle of one half. -/
def dfDrizzle : DataFrame :=
  read_csv_data [(⟨2022, 1, 1⟩, half)]

/-! ## Helper lemmas on `listMin`, `listMax` and `monthRange` -/

theorem foldl_min_le_init (xs : List Nat) (x : Nat) : xs.foldl min x ≤ x := by
  induction xs generalizing x with
  | nil => exact Nat.le_refl x
  | cons a t ih => exact Nat.le_trans (ih (min x a)) (Nat.min_le_left x a)

theorem foldl_min_le_mem (xs : List Nat) (x y : Nat) (hy : y ∈ xs) :
    xs.foldl min x ≤ y := by
  induction xs generalizing x with
  | nil => cases hy
  | cons a t ih =>
    rcases List.mem_cons.mp hy with h | h
    · subst h
      exact Nat.le_trans (foldl_min_le_init t (min x y)) (Nat.min_le_right x y)
    · exact ih (min x a) h

theorem foldl_min_mem (xs : List Nat) (x : Nat) :
    xs.foldl min x = x ∨ xs.foldl min x ∈ xs := by
  induction xs generalizing x with
  | nil => exact Or.inl rfl
  | cons a t ih =>
    rcases ih (min x a) with h | h
    · rcases Nat.le_total x a with hle | hle
      · exact Or.inl (by rw [List.foldl_cons, h, Nat.min_eq_left hle])
      · refine Or.inr ?_
        rw [List.foldl_cons, h, Nat.min_eq_right hle]
        exact List.mem_cons_self a t
    · exact Or.inr (List.mem_cons_of_mem a h)

theorem init_le_foldl_max (xs : List Nat) (x : Nat) : x ≤ xs.foldl max x := by
  induction xs generalizing x with
  | nil => exact Nat.le_refl x
  | cons a t ih => exact Nat.le_trans (Nat.le_max_left x a) (ih (max x a))

theorem mem_le_foldl_max (xs : List Nat) (x y : Nat) (hy : y ∈ xs) :
    y ≤ xs.foldl max x := by
  induction xs generalizing x with
  | nil => cases hy
  | cons a t ih =>
    rcases List.mem_cons.mp hy with h | h
    · subst h
      exact Nat.le_trans (Nat.le_max_right x y) (init_le_foldl_max t (max x y))
    · exact ih (max x a) h

theorem foldl_max_mem (xs : List Nat) (x : Nat) :
    xs.foldl max x = x ∨ xs.foldl max x ∈ xs := by
  induction xs generalizing x with
  | nil => exact Or.inl rfl
  | cons a t ih =>
    rcases ih (max x a) with h | h
    · rcases Nat.le_total x a with hle | hle
      · refine Or.inr ?_
        rw [List.foldl_cons, h, Nat.max_eq_right hle]
        exact List.mem_cons_self a t
      · exact Or.inl (by rw [List.foldl_cons, h, Nat.max_eq_left hle])
    · exact Or.inr (List.mem_cons_of_mem a h)

theorem listMin_le {l : List Nat} {a : Nat} (h : listMin l = some a) :
    ∀ x ∈ l, a ≤ x := by
  match l with
  | [] => simp [listMin] at h
  | x :: xs =>
    simp only [listMin, Option.some.injEq] at h
    intro y hy
    rcases List.mem_cons.mp hy with h1 | h1
    · subst h1; exact h ▸ foldl_min_le_init xs y
    · exact h ▸ foldl_min_le_mem xs x y h1

theorem listMin_mem {l : List Nat} {a : Nat} (h : listMin l = some a) :
    a ∈ l := by
  match l with
  | [] => simp [listMin] at h
  | x :: xs =>
    simp only [listMin, Option.some.injEq] at h
    rcases foldl_min_mem xs x with h1 | h1
    · rw [← h, h1]; exact List.mem_cons_self x xs
    · rw [← h]; exact List.mem_cons_of_mem x h1

theorem le_listMax {l : List Nat} {b : Nat} (h : listMax l = some b) :
    ∀ x ∈ l, x ≤ b := by
  match l with
  | [] => simp [listMax] at h
  | x :: xs =>
    simp only [listMax, Option.some.injEq] at h
    intro y hy
    rcases List.mem_cons.mp hy with h1 | h1
    · subst h1; exact h ▸ init_le_foldl_max xs y
    · exact h ▸ mem_le_foldl_max xs x y h1

theorem listMax_mem {l : List Nat} {b : Nat} (h : listMax l = some b) :
    b ∈ l := by
  match l with
  | [] => simp [listMax] at h
  | x :: xs =>
    simp only [listMax, Option.some.injEq] at h
    rcases foldl_max_mem xs x with h1 | h1
    · rw [← h, h1]; exact List.mem_cons_self x xs
    · rw [← h]; exact List.mem_cons_of_mem x h1

theorem listMin_of_mem {l : List Nat} {x : Nat} (hx : x ∈ l) :
    ∃ a, listMin l = some a := by
  match l with
  | [] => cases hx
  | y :: ys => exact ⟨ys.foldl min y, rfl⟩

theorem listMax_of_mem {l : List Nat} {x : Nat} (hx : x ∈ l) :
    ∃ b, listMax l = some b := by
  match l with
  | [] => cases hx
  | y :: ys => exact ⟨ys.foldl max y, rfl⟩

theorem mem_monthRange {rows : List (Date × Rat)} {lo hi : Nat}
    (hlo : listMin (monthsOf rows) = some lo)
    (hhi : listMax (monthsOf rows) = some hi) (i : Nat) :
    i ∈ monthRange rows ↔ lo ≤ i ∧ i ≤ hi := by
  unfold monthRange
  rw [hlo, hhi]
  simp only [List.mem_map, List.mem_range]
  constructor
  · rintro ⟨k, hk, rfl⟩
    have := Nat.le_trans (listMin_le hlo hi (listMax_mem hhi))
      (Nat.le_refl hi)
    omega
  · rintro ⟨h1, h2⟩
    exact ⟨i - lo, by omega, by omega⟩

theorem monthIdx_mem_monthRange {rows : List (Date × Rat)} {r : Date × Rat}
    (hr : r ∈ rows) : r.1.monthIdx ∈ monthRange rows := by
  have hmem : r.1.monthIdx ∈ monthsOf rows :=
    List.mem_map_of_mem (fun s => s.1.monthIdx) hr
  obtain ⟨lo, hlo⟩ := listMin_of_mem hmem
  obtain ⟨hi, hhi⟩ := listMax_of_mem hmem
  rw [mem_monthRange hlo hhi]
  exact ⟨listMin_le hlo _ hmem, le_listMax hhi _ hmem⟩

theorem monthKey_inj {a b : Nat} (h : monthKey a = monthKey b) : a = b := by
  unfold monthKey at h
  have h1 : a / 12 = b / 12 := congrArg Prod.fst h
  have h2 : a % 12 + 1 = b % 12 + 1 := congrArg Prod.snd h
  omega

theorem monthKey_monthIdx (d : Date) (h1 : 1 ≤ d.month) (h2 : d.month ≤ 12) :
    monthKey d.monthIdx = (d.year, d.month) := by
  unfold monthKey Date.monthIdx
  rw [Prod.mk.injEq]
  omega

/-! ## Helper lemmas on `optionMapM` and filtered lengths -/

theorem optionMapM_eq_map {α β : Type} (f : α → Option β) (g : α → β)
    (l : List α) (h : ∀ x ∈ l, f x = some (g x)) :
    optionMapM f l = some (l.map g) := by
  induction l with
  | nil => rfl
  | cons a t ih =>
    have ha := h a (List.mem_cons_self a t)
    have ht := ih (fun x hx => h x (List.mem_cons_of_mem a hx))
    simp [optionMapM, ha, ht]

theorem length_filter_mono {α : Type} (l : List α) (p q : α → Bool)
    (h : ∀ a ∈ l, q a = true → p a = true) :
    (l.filter q).length ≤ (l.filter p).length := by
  induction l with
  | nil => exact Nat.le_refl 0
  | cons a t ih =>
    have ht := ih (fun x hx => h x (List.mem_cons_of_mem a hx))
    by_cases hq : q a = true
    · have hp := h a (List.mem_cons_self a t) hq
      simp [List.filter_cons, hq, hp]
      omega
    · simp only [Bool.not_eq_true] at hq
      by_cases hp : p a = true
      · simp [List.filter_cons, hq, hp]
        omega
      · simp only [Bool.not_eq_true] at hp
        simp [List.filter_cons, hq, hp]
        exact ht

theorem length_filter_lt {α : Type} (l : List α) (p q : α → Bool)
    (h : ∀ a ∈ l, q a = true → p a = true) (x : α) (hx : x ∈ l)
    (hpx : p x = true) (hqx : q x = false) :
    (l.filter q).length < (l.filter p).length := by
  induction l with
  | nil => cases hx
  | cons a t ih =>
    have hmono := length_filter_mono t p q
      (fun y hy => h y (List.mem_cons_of_mem a hy))
    rcases List.mem_cons.mp hx with hax | hxt
    · subst hax
      simp [List.filter_cons, hpx, hqx]
      omega
    · have hih := ih (fun y hy => h y (List.mem_cons_of_mem a hy)) hxt
      by_cases hqa : q a = true
      · have hpa := h a (List.mem_cons_self a t) hqa
        simp [List.filter_cons, hqa, hpa]
        omega
      · simp only [Bool.not_eq_true] at hqa
        by_cases hpa : p a = true
        · simp [List.filter_cons, hqa, hpa]
          omega
        · simp only [Bool.not_eq_true] at hpa
          simp [List.filter_cons, hqa, hpa]
          exact hih

theorem countInMonth_eq (df : DataFrame) (t : Rat) (i : Nat) :
    (valuesInMonth (filteredRows df t) i).length
      = (df.rows.filter (fun r => (r.1.monthIdx == i) && decide (t < r.2))).length := by
  unfold valuesInMonth filteredRows
  rw [List.length_map, List.filter_filter]

/-! ## Claim theorems -/

/-- C1 counterexample: an aggregate holding only three months of 2021 makes
`create_year_df` raise ValueError (modelled `none`): it does not return 12
positions with missing-value markers for the absent months. -/
theorem create_year_df_counterexample :
    create_year_df [((2021, 1), (1 : Rat)), ((2021, 2), 2), ((2021, 3), 3)] 2021
      = none := by
  decide

/-- C1 (amended): `create_year_df` filters the aggregate to the given year
and attaches the fixed labels 1月..12月 positionally.  It returns 12
labelled positions — position i holding the aggregate value for calendar
month i+1 — exactly when the aggregate has entries for precisely the twelve
months (year, 1)..(year, 12) in order; whenever the year has any other
number of entries, the 12-label index assignment raises ValueError, and no
missing-value markers are ever inserted. -/
theorem create_year_df_spec :
    (∀ (agg : List ((Nat × Nat) × Rat)) (y : Nat) (vs : List Rat),
        vs.length = 12 →
        agg.filter (fun e => e.1.1 == y)
          = ((List.range 12).map (fun i => (y, i + 1))).zip vs →
        create_year_df agg y = some (monthLabels.zip vs, y)) ∧
    (∀ (agg : List ((Nat × Nat) × Rat)) (y : Nat),
        (agg.filter (fun e => e.1.1 == y)).length ≠ 12 →
        create_year_df agg y = none) := by
  constructor
  · intro agg y vs hlen hfil
    unfold create_year_df
    rw [hfil]
    have hkeys : ((List.range 12).map (fun i => (y, i + 1))).length = 12 := by
      simp
    have hziplen : (((List.range 12).map (fun i => (y, i + 1))).zip vs).length = 12 := by
      rw [List.length_zip, hkeys, hlen]
      exact min_self 12
    rw [if_pos hziplen]
    rw [List.map_snd_zip _ _ (by rw [hkeys, hlen])]
  · intro agg y hne
    unfold create_year_df
    rw [if_neg hne]

/-- C1 witness: a full twelve-month aggregate for 2021 yields the twelve
labelled positions, and a one-month aggregate yields the error. -/
theorem create_year_df_spec_witness :
    create_year_df ((List.range 12).map (fun i => ((2021, i + 1), (0 : Rat)))) 2021
        = some (monthLabels.zip (List.replicate 12 (0 : Rat)), 2021) ∧
      create_year_df [((2021, 1), (1 : Rat))] 2021 = none :=
  ⟨create_year_df_spec.1 _ 2021 (List.replicate 12 0) (by decide) (by decide),
   create_year_df_spec.2 _ 2021 (by decide)⟩

/-- C3 counterexample: a two-row file given newest-first comes back from the
loader in the same, unsorted order — `read_csv_data` performs no sort. -/
theorem read_csv_data_unsorted_counterexample :
    (read_csv_data [(⟨2022, 2, 1⟩, 1), (⟨2022, 1, 1⟩, 2)]).rows
        = [(⟨2022, 2, 1⟩, 1), (⟨2022, 1, 1⟩, 2)] ∧
      isSortedByDate (read_csv_data [(⟨2022, 2, 1⟩, 1), (⟨2022, 1, 1⟩, 2)]).rows
        = false := by
  exact ⟨rfl, by decide⟩

/-- C3 (amended): the loader keeps the rows of the file exactly in file
order — so the output is chronological only when the file was already
sorted — and renames the value column to the fixed label 降水量. -/
theorem read_csv_data_order_and_label (fileRows : List (Date × Rat)) :
    (read_csv_data fileRows).rows = fileRows ∧
      (read_csv_data fileRows).colName = "降水量" :=
  ⟨rfl, rfl⟩

/-- C7 counterexample: loading while the process-wide display precision is 3
leaves it at 1 afterwards — `read_csv_data` mutates global display state. -/
theorem read_csv_data_mutates_globals_counterexample :
    (read_csv_dataS [] ⟨100, 3, "default"⟩).2 ≠ ⟨100, 3, "default"⟩ := by
  decide

/-- C7 (amended): besides performing the read, `read_csv_data` sets the
process-wide pandas options display.max_rows to 500 and display precision
to 1; it touches no other process-wide state (the font family is left
unchanged) and the returned frame is the pure read. -/
theorem read_csv_dataS_effect (fileRows : List (Date × Rat)) (g : GlobalOptions) :
    (read_csv_dataS fileRows g).1 = read_csv_data fileRows ∧
      (read_csv_dataS fileRows g).2
        = { maxRows := 500, precision := 1, fontFamily := g.fontFamily } :=
  ⟨rfl, rfl⟩

/-- C9 counterexample: no caller configuration makes `main` load from a path
other than the literal ./data/hiyoshi.csv. -/
theorem mainInputPath_counterexample :
    ¬ ∃ graphType, mainInputPath graphType = "./data/other.csv" := by
  rintro ⟨gt, h⟩
  rw [show mainInputPath gt = "./data/hiyoshi.csv" from rfl] at h
  exact absurd h (by decide)

/-- C9 (amended): `read_csv_data` is parametric in the path, but `main`
hardcodes ./data/hiyoshi.csv; the only configuration input of `main` is the
backend selector, which never changes the path. -/
theorem mainInputPath_hardcoded (graphType : String) :
    mainInputPath graphType = "./data/hiyoshi.csv" := rfl

/-- C4 counterexample: handed a zero-row frame, the plt pipeline performs
the monthly-sum resample and only afterwards fails — with the TypeError of
`range(NaN, NaN)`, not with an EmptySeriesError raised before any
aggregation. -/
theorem empty_series_counterexample :
    mainPltAfterLoad { rows := [], colName := "降水量" }
      = (["resample_sum"], .error .typeErrorRange) := rfl

/-- C4 (amended): the script defines no error taxonomy of its own; failures
surface as the exceptions of the underlying libraries and abort the run
with no partial result.  A missing path raises the file-not-found error; a
file with zero rows already fails inside `read_csv` with its empty-data
error; an unparseable date raises a parse error.  No EmptySeriesError
exists: a zero-row frame reaching the pipeline is not rejected before
aggregation — the monthly resample runs and the failure is a TypeError at
the year loop. -/
theorem load_error_taxonomy (df : DataFrame) (hdf : df.rows = []) :
    loadFile none = .error .notFound ∧
      loadFile (some []) = .error .emptyData ∧
      loadFile (some [{ dateField := none, value := 0 }]) = .error .parseError ∧
      mainPltAfterLoad df = (["resample_sum"], .error .typeErrorRange) := by
  refine ⟨rfl, rfl, rfl, ?_⟩
  obtain ⟨rows, cn⟩ := df
  simp only at hdf
  subst hdf
  rfl

/-- C4 witness: the taxonomy facts at a concrete zero-row frame. -/
theorem load_error_taxonomy_witness :
    loadFile none = .error .notFound ∧
      loadFile (some []) = .error .emptyData ∧
      loadFile (some [{ dateField := none, value := 0 }]) = .error .parseError ∧
      mainPltAfterLoad { rows := [], colName := "x" }
        = (["resample_sum"], .error .typeErrorRange) :=
  load_error_taxonomy { rows := [], colName := "x" } rfl

/-- C6 counterexample: a series running from 2020-03-01 to 2021-05-01 has
start year 2020 and end year 2021, but the year loop aborts with ValueError
— 2020 contributes only ten monthly rows to the aggregate — so no YearTable
with one column per year of [2020, 2021) is produced at all. -/
theorem year_table_counterexample :
    listMin (yearsOf dfSparse) = some 2020 ∧
      listMax (yearsOf dfSparse) = some 2021 ∧
      buildYearTable (monthlySum dfSparse) 2020 2021 = none := by
  refine ⟨rfl, rfl, ?_⟩
  decide

/-- C6 (amended): when every year of the half-open range
[start_year, end_year) has exactly twelve rows in the monthly aggregate —
as happens when the series starts in January of its first year — the
assembled YearTable has exactly one column per year of the range, in
ascending year order, and the maximum year itself contributes no column.
When some year of the range has a different number of rows, the assembly
aborts with ValueError instead of producing a table. -/
theorem year_table_columns {α : Type} (agg : List ((Nat × Nat) × α)) (s e : Nat)
    (h : ∀ y, s ≤ y → y < e → (agg.filter (fun en => en.1.1 == y)).length = 12) :
    ∃ cols, buildYearTable agg s e = some cols ∧
      cols.map Prod.snd = (List.range (e - s)).map (fun k => s + k) := by
  refine ⟨(List.range (e - s)).map (fun k =>
      (monthLabels.zip ((agg.filter (fun en => en.1.1 == s + k)).map Prod.snd),
        s + k)), ?_, ?_⟩
  · unfold buildYearTable
    apply optionMapM_eq_map
    intro k hk
    have hk12 := h (s + k) (Nat.le_add_right s k)
      (by have := List.mem_range.mp hk; omega)
    unfold create_year_df
    rw [if_pos hk12]
  · rw [List.map_map]
    rfl

/-- C6 witness: a full twelve-month aggregate for 2020 assembles into the
single ascending column [2020] for the range [2020, 2021). -/
theorem year_table_columns_witness :
    ∃ cols, buildYearTable
        ((List.range 12).map (fun i => ((2020, i + 1), (0 : Rat)))) 2020 2021
          = some cols ∧
      cols.map Prod.snd = (List.range (2021 - 2020)).map (fun k => 2020 + k) :=
  year_table_columns _ 2020 2021 (by
    intro y h1 h2
    have hy : y = 2020 := by omega
    subst hy
    decide)

/-- C8: aggregation and the whole pipeline are pure in the embedding: the
outcome of a run does not depend on the mutable process-wide options, so
re-running `main` on the unchanged input — in particular from the state the
first run left behind — produces the identical result, and repeated
aggregation calls on the same Series yield identical mappings. -/
theorem pipeline_idempotent (file : Option (List RawRow)) (g h : GlobalOptions) :
    (mainPlt file g).1 = (mainPlt file h).1 ∧
      (mainPlt file ((mainPlt file g).2)).1 = (mainPlt file g).1 ∧
      (∀ df, monthlySum df = monthlySum df) ∧
      (∀ df t, monthlyCountAbove df t = monthlyCountAbove df t) := by
  have key : ∀ g1 g2 : GlobalOptions, (mainPlt file g1).1 = (mainPlt file g2).1 := by
    intro g1 g2
    unfold mainPlt
    cases loadFile file <;> rfl
  exact ⟨key g h, key _ g, fun _ => rfl, fun _ _ => rfl⟩

/-- C2 counterexample: on the example series of the spec, February 2022 lies
inside the series span and every February value is ≤ 0, yet the count
aggregate at threshold 0 has no entry for (2022, 2) at all — the month is
absent, not present with count 0, because the frame is filtered before it
is resampled. -/
theorem rainy_count_counterexample :
    monthlyCountAbove dfExample 0 = [((2022, 1), 1)] ∧
      ((2022, 2), 0) ∉ monthlyCountAbove dfExample 0 := by
  exact ⟨by decide, by decide⟩

/-- C2 (amended): the count frame is filtered to above-threshold rows
before resampling, so a month all of whose values are ≤ the threshold is
present with count 0 exactly when it lies inside the month span of the
FILTERED frame; boundary months with no above-threshold value — such as
February in the example of the spec — are absent, and for the example
series the aggregate at threshold 0 is {(2022,1): 1} alone. -/
theorem rainy_count_interior_zero (df : DataFrame) (t : Rat) (i : Nat)
    (hi : i ∈ monthRange (filteredRows df t))
    (hnone : valuesInMonth (filteredRows df t) i = []) :
    (monthKey i, 0) ∈ monthlyCountAbove df t := by
  have hmem : (monthKey i, (valuesInMonth (filteredRows df t) i).length)
      ∈ monthlyCountAbove df t :=
    List.mem_map_of_mem
      (fun j => (monthKey j, (valuesInMonth (filteredRows df t) j).length)) hi
  rw [hnone] at hmem
  exact hmem

/-- C2 witness: with rain above 1 in January and March 2022 and only a
drizzle in February, the February bucket is present with count 0 at
threshold 1. -/
theorem rainy_count_interior_zero_witness :
    (monthKey 24265, 0) ∈ monthlyCountAbove dfGap 1 :=
  rainy_count_interior_zero dfGap 1 24265 (by decide) (by decide)

/-- C5: the monthly-sum aggregate has an entry for every (year, month)
touched by a timestamp of the series, an explicit 0 entry for untouched
months lying inside the month span of the series, and no entry at all for
months outside that span. -/
theorem monthlySum_coverage (df : DataFrame) (lo hi : Nat)
    (hlo : listMin (monthsOf df.rows) = some lo)
    (hhi : listMax (monthsOf df.rows) = some hi)
    (hvalid : ∀ r ∈ df.rows, 1 ≤ r.1.month ∧ r.1.month ≤ 12) :
    (∀ r ∈ df.rows, ∃ c, ((r.1.year, r.1.month), c) ∈ monthlySum df) ∧
      (∀ i, lo ≤ i → i ≤ hi → valuesInMonth df.rows i = [] →
        (monthKey i, 0) ∈ monthlySum df) ∧
      (∀ i c, i < lo ∨ hi < i → (monthKey i, c) ∉ monthlySum df) := by
  refine ⟨?_, ?_, ?_⟩
  · intro r hr
    refine ⟨(valuesInMonth df.rows r.1.monthIdx).foldr (· + ·) 0, ?_⟩
    have hmem : (monthKey r.1.monthIdx,
        (valuesInMonth df.rows r.1.monthIdx).foldr (· + ·) 0) ∈ monthlySum df :=
      List.mem_map_of_mem
        (fun i => (monthKey i, (valuesInMonth df.rows i).foldr (· + ·) 0))
        (monthIdx_mem_monthRange hr)
    rw [monthKey_monthIdx r.1 (hvalid r hr).1 (hvalid r hr).2] at hmem
    exact hmem
  · intro i h1 h2 hempty
    have hmem : (monthKey i,
        (valuesInMonth df.rows i).foldr (· + ·) 0) ∈ monthlySum df :=
      List.mem_map_of_mem
        (fun j => (monthKey j, (valuesInMonth df.rows j).foldr (· + ·) 0))
        ((mem_monthRange hlo hhi i).mpr ⟨h1, h2⟩)
    rw [hempty] at hmem
    exact hmem
  · intro i c hout hmem
    unfold monthlySum resampleMonthly at hmem
    obtain ⟨j, hj, hjeq⟩ := List.mem_map.mp hmem
    have hji : j = i := monthKey_inj (congrArg Prod.fst hjeq)
    subst hji
    have := (mem_monthRange hlo hhi j).mp hj
    omega

/-- C5 witness: for the two-month series, January 2022 is present, the
untouched interior month February 2022 is present with sum 0, and the
out-of-span month December 2021 is absent. -/
theorem monthlySum_coverage_witness :
    (∃ c, ((2022, 1), c) ∈ monthlySum dfTwoMonths) ∧
      (monthKey 24265, 0) ∈ monthlySum dfTwoMonths ∧
      (monthKey 24263, 5) ∉ monthlySum dfTwoMonths :=
  ⟨(monthlySum_coverage dfTwoMonths 24264 24266
      (by decide) (by decide) (by decide)).1 (⟨2022, 1, 1⟩, 5) (by decide),
   (monthlySum_coverage dfTwoMonths 24264 24266
      (by decide) (by decide) (by decide)).2.1 24265
      (by decide) (by decide) (by decide),
   (monthlySum_coverage dfTwoMonths 24264 24266
      (by decide) (by decide) (by decide)).2.2 24263 5 (Or.inl (by decide))⟩

/-- C10: the two rendering backends disagree on the rainy-day aggregate:
`main` invokes the matplotlib path with threshold 1 while the plotly path
always counts days whose value exceeds 0, so every series containing a day
with 0 < value ≤ 1 yields different aggregates in the two modes. -/
theorem backends_disagree (df : DataFrame) (r : Date × Rat)
    (hr : r ∈ df.rows) (h0 : 0 < r.2) (h1 : r.2 ≤ 1) :
    pltRainyAgg df ≠ pxRainyAgg df := by
  intro heq
  have hmem0 : r ∈ filteredRows df 0 :=
    List.mem_filter.mpr ⟨hr, by simpa using h0⟩
  have hi0 : r.1.monthIdx ∈ monthRange (filteredRows df 0) :=
    monthIdx_mem_monthRange hmem0
  have hc0 : (monthKey r.1.monthIdx,
      (valuesInMonth (filteredRows df 0) r.1.monthIdx).length) ∈ pxRainyAgg df :=
    List.mem_map_of_mem
      (fun j => (monthKey j, (valuesInMonth (filteredRows df 0) j).length)) hi0
  have hlt : (valuesInMonth (filteredRows df 1) r.1.monthIdx).length
      < (valuesInMonth (filteredRows df 0) r.1.monthIdx).length := by
    rw [countInMonth_eq, countInMonth_eq]
    have hmono : ∀ a ∈ df.rows,
        ((a.1.monthIdx == r.1.monthIdx) && decide ((1 : Rat) < a.2)) = true →
        ((a.1.monthIdx == r.1.monthIdx) && decide ((0 : Rat) < a.2)) = true := by
      intro a ha hq
      rw [Bool.and_eq_true] at hq ⊢
      refine ⟨hq.1, decide_eq_true ?_⟩
      exact lt_trans zero_lt_one (of_decide_eq_true hq.2)
    have hp : ((r.1.monthIdx == r.1.monthIdx) && decide ((0 : Rat) < r.2)) = true := by
      rw [Bool.and_eq_true]
      exact ⟨beq_self_eq_true _, decide_eq_true h0⟩
    have hq : ((r.1.monthIdx == r.1.monthIdx) && decide ((1 : Rat) < r.2)) = false := by
      rw [decide_eq_false (not_lt.mpr h1), Bool.and_false]
    exact length_filter_lt df.rows _ _ hmono r hr hp hq
  rw [← heq] at hc0
  unfold pltRainyAgg monthlyCountAbove resampleMonthly at hc0
  obtain ⟨j, hj, hjeq⟩ := List.mem_map.mp hc0
  have hji : j = r.1.monthIdx := monthKey_inj (congrArg Prod.fst hjeq)
  subst hji
  have hcnt : (valuesInMonth (filteredRows df 1) r.1.monthIdx).length
      = (valuesInMonth (filteredRows df 0) r.1.monthIdx).length :=
    congrArg Prod.snd hjeq
  omega

/-- C10 witness: a single drizzle day of one half millimetre is counted by
the plotly backend but not by the matplotlib backend. -/
theorem backends_disagree_witness :
    pltRainyAgg dfDrizzle ≠ pxRainyAgg dfDrizzle :=
  backends_disagree dfDrizzle (⟨2022, 1, 1⟩, half)
    (by decide) (by decide) (by decide)

end Weather
